import Mathlib

/-!
Verification of the Tron light-cycle round simulation and AI decision engine
(src/main.py). The pygame presentation layer (drawing, fonts, sprites, audio,
title/menu screens) is out of scope; the embedding below covers the grid
geometry, the agent (LightCycle) operations, the occupancy index, the
collision check, the AI heuristic, and the round/match state machine of the
main loop. Python machine-independent integers are modelled as Int; Python
sets of cells are modelled as lists used only through membership; the
process-global random source is modelled by explicit inputs (the per-call
hunting draw and the per-candidate jitter draws).
-/

set_option maxRecDepth 4000

/-- A grid cell, a pair of Python integers. -/
abbrev Cell := Int × Int

def GRID_WIDTH : Int := 40

def GRID_HEIGHT : Int := 30

def UP : Cell := (0, -1)

def DOWN : Cell := (0, 1)

def LEFT : Cell := (-1, 0)

def RIGHT : Cell := (1, 0)

/-- The fixed iteration order of headings, DIRS in the source. -/
def DIRS : List Cell := [UP, DOWN, LEFT, RIGHT]

def ROUNDS_TO_WIN : Nat := 3

def BLUE : Nat × Nat × Nat := (0, 200, 255)

def RED : Nat × Nat × Nat := (255, 80, 80)

/-- in\_bounds from the source: 0 <= x < GRID_WIDTH and 0 <= y < GRID_HEIGHT. -/
def in_bounds (pos : Cell) : Bool :=
  decide (0 ≤ pos.1 ∧ pos.1 < GRID_WIDTH ∧ 0 ≤ pos.2 ∧ pos.2 < GRID_HEIGHT)

/-- next\_pos\_from in the source: pure translation of a cell by a heading. -/
def next_pos_from (head direction : Cell) : Cell :=
  (head.1 + direction.1, head.2 + direction.2)

/-- manhattan in the source: abs(ax-bx) + abs(ay-by). -/
def manhattan (a b : Cell) : Int :=
  ((a.1 - b.1).natAbs : Int) + ((a.2 - b.2).natAbs : Int)

/-- The LightCycle class: color, heading, trail (position history, the last
element is the head), liveness flag, and name. The sprite field is a pygame
surface and belongs to the excluded presentation layer. -/
structure LightCycle where
  color : Nat × Nat × Nat
  direction : Cell
  trail : List Cell
  alive : Bool
  name : String
  deriving DecidableEq

/-- The head property: trail[-1]. Trails are created non-empty and only
appended to, so the default is never consulted in reachable states. -/
def LightCycle.head (c : LightCycle) : Cell :=
  c.trail.getLastD (0, 0)

/-- LightCycle.move: no-op when not alive, otherwise append head + heading to
the trail. -/
def LightCycle.move (c : LightCycle) : LightCycle :=
  if c.alive then
    { c with trail := c.trail ++ [next_pos_from c.head c.direction] }
  else c

/-- LightCycle.change\_direction: set the heading unless the request is the
exact reversal of the current heading, in which case it is silently ignored. -/
def LightCycle.change_direction (c : LightCycle) (new_dir : Cell) : LightCycle :=
  if (-new_dir.1, -new_dir.2) ≠ c.direction then
    { c with direction := new_dir }
  else c

/-- build\_occupied: union of all trails, used only through membership. -/
def build_occupied (players : List LightCycle) : List Cell :=
  players.foldl (fun occ p => occ ++ p.trail) []

/-- The loop body of safe\_directions, recursing over the list of candidate
headings: skip the reversal of the current heading, keep a heading iff its
next position is in bounds and unoccupied. -/
def safe_directions_from (head current_dir : Cell) (occupied : List Cell) :
    List Cell → List Cell
  | [] => []
  | d :: ds =>
    if (-d.1, -d.2) = current_dir then
      safe_directions_from head current_dir occupied ds
    else
      let np := next_pos_from head d
      if in_bounds np && decide (np ∉ occupied) then
        d :: safe_directions_from head current_dir occupied ds
      else
        safe_directions_from head current_dir occupied ds

/-- safe\_directions in the source: the loop over DIRS in fixed order. -/
def safe_directions (head current_dir : Cell) (occupied : List Cell) : List Cell :=
  safe_directions_from head current_dir occupied DIRS

/-- The keep-condition of safe\_directions as a single boolean predicate. -/
def safe_pred (head current_dir : Cell) (occupied : List Cell) (d : Cell) : Bool :=
  decide ((-d.1, -d.2) ≠ current_dir) && in_bounds (next_pos_from head d) &&
    decide (next_pos_from head d ∉ occupied)

/-- The score choose\_ai\_direction assigns to candidate number i with heading
d: one-ply lookahead space score, distance score when hunting, straight-line
bonus, and the i-th jitter draw. -/
def aiScore (ai_dir ai_head human_head : Cell) (occupied : List Cell)
    (hunt : Bool) (jitter : Nat → Int) (i : Nat) (d : Cell) : Int :=
  let np := next_pos_from ai_head d
  ((safe_directions np d (np :: occupied)).length : Int) * 10 +
    (if hunt then 50 - manhattan np human_head else 0) +
    (if d = ai_dir then 2 else 0) +
    jitter i

/-- The selection loop of choose\_ai\_direction: running best heading and best
score, updated on strictly greater scores only. -/
def aiLoop (score : Nat → Cell → Int) :
    List Cell → Nat → Cell → Int → Cell × Int
  | [], _, best, best_score => (best, best_score)
  | d :: ds, i, best, best_score =>
    if best_score < score i d then
      aiLoop score ds (i + 1) d (score i d)
    else
      aiLoop score ds (i + 1) best best_score

/-- choose\_ai\_direction in the source. The hunting coin flip
(random.random() < aggression) and the per-candidate jitter draws
(random.randint(-2, 2), one per candidate in iteration order) are explicit
inputs. Returns the current heading when there is no safe candidate. -/
def choose_ai_direction (ai human : LightCycle) (occupied : List Cell)
    (hunt : Bool) (jitter : Nat → Int) : Cell :=
  let candidates := safe_directions ai.head ai.direction occupied
  if candidates = [] then
    ai.direction
  else
    (aiLoop (aiScore ai.direction ai.head human.head occupied hunt jitter)
      candidates 0 ai.direction (-(10 ^ 9 : Int))).1

/-- reset\_round: both agents at their fixed starting positions and headings,
named by mode. -/
def reset_round (vs_ai : Bool) : LightCycle × LightCycle :=
  (⟨BLUE, RIGHT, [(10, GRID_HEIGHT / 2)], true, "Player 1"⟩,
   if vs_ai then
     ⟨RED, LEFT, [(GRID_WIDTH - 10, GRID_HEIGHT / 2)], true, "AI"⟩
   else
     ⟨RED, LEFT, [(GRID_WIDTH - 10, GRID_HEIGHT / 2)], true, "Player 2"⟩)

/-- The per-tick death check defined inside main: dead iff the head is out of
bounds or lies in some trail with that trail's last element excluded. -/
def player_dead (players : List LightCycle) (p : LightCycle) : Bool :=
  if in_bounds p.head = false then true
  else players.any (fun other => decide (p.head ∈ other.trail.dropLast))

/-- The round/match state the main loop keeps: the two agents, the round-over
flag, the outcome text, and the two score counters. -/
structure GameState where
  player1 : LightCycle
  player2 : LightCycle
  round_over : Bool
  winner_text : String
  scoreP1 : Nat
  scoreP2 : Nat
  deriving DecidableEq

/-- One simulation step of the main loop (the body guarded by
`if not round_over:`): AI heading update in vs-AI mode, both moves, the death
check against the post-move trails, and the round-over / outcome / score
update. -/
def tick (vs_ai : Bool) (best_of : Nat) (hunt : Bool) (jitter : Nat → Int)
    (g : GameState) : GameState :=
  if g.round_over then g
  else
    let player2a :=
      if vs_ai then
        let occ_now := build_occupied [g.player1, g.player2]
        g.player2.change_direction
          (choose_ai_direction g.player2 g.player1 occ_now hunt jitter)
      else g.player2
    let p1 := g.player1.move
    let p2 := player2a.move
    let players := [p1, p2]
    let p1_dead := player_dead players p1
    let p2_dead := player_dead players p2
    if p1_dead || p2_dead then
      if p1_dead && p2_dead then
        { g with
          player1 := p1
          player2 := p2
          round_over := true
          winner_text := "Draw!" }
      else if p2_dead then
        { g with
          player1 := p1
          player2 := p2
          round_over := true
          winner_text := "Player 1 Wins!"
          scoreP1 := if best_of = 5 then g.scoreP1 + 1 else g.scoreP1 }
      else
        { g with
          player1 := p1
          player2 := p2
          round_over := true
          winner_text := if vs_ai then "AI Wins!" else "Player 2 Wins!"
          scoreP2 := if best_of = 5 then g.scoreP2 + 1 else g.scoreP2 }
    else
      { g with player1 := p1, player2 := p2 }

/-- The keys the main loop reacts to (ESC and QUIT terminate the process and
are outside the model). -/
inductive Key where
  | up | down | left | right | w | s | a | d | r | other
  deriving DecidableEq

/-- The KEYDOWN handler of the main loop: while the round is over, every key
except R is ignored; R resets the match scores when the match has concluded,
then starts a fresh round. During play, arrows steer player 1 and WASD steers
player 2 in two-player mode only. -/
def handle_key (vs_ai : Bool) (best_of rounds_to_win : Nat) (k : Key)
    (g : GameState) : GameState :=
  if g.round_over then
    if k = Key.r then
      let g1 :=
        if best_of = 5 ∧ (rounds_to_win ≤ g.scoreP1 ∨ rounds_to_win ≤ g.scoreP2) then
          { g with scoreP1 := 0, scoreP2 := 0 }
        else g
      { g1 with
        player1 := (reset_round vs_ai).1
        player2 := (reset_round vs_ai).2
        round_over := false
        winner_text := "" }
    else g
  else
    let g1 :=
      match k with
      | Key.up => { g with player1 := g.player1.change_direction UP }
      | Key.down => { g with player1 := g.player1.change_direction DOWN }
      | Key.left => { g with player1 := g.player1.change_direction LEFT }
      | Key.right => { g with player1 := g.player1.change_direction RIGHT }
      | _ => g
    if vs_ai then g1
    else
      match k with
      | Key.w => { g1 with player2 := g1.player2.change_direction UP }
      | Key.s => { g1 with player2 := g1.player2.change_direction DOWN }
      | Key.a => { g1 with player2 := g1.player2.change_direction LEFT }
      | Key.d => { g1 with player2 := g1.player2.change_direction RIGHT }
      | _ => g1

/-- The state the main loop starts a match in: fresh round, empty outcome
text, both scores zero. -/
def init_state (vs_ai : Bool) : GameState :=
  { player1 := (reset_round vs_ai).1
    player2 := (reset_round vs_ai).2
    round_over := false
    winner_text := ""
    scoreP1 := 0
    scoreP2 := 0 }

/-- One iteration of the main loop either dispatches a KEYDOWN event or runs
a simulation tick (with the random draws of that tick as inputs). -/
inductive Step (vs_ai : Bool) (best_of rounds_to_win : Nat) :
    GameState → GameState → Prop where
  | key (k : Key) (g : GameState) :
      Step vs_ai best_of rounds_to_win g (handle_key vs_ai best_of rounds_to_win k g)
  | sim (hunt : Bool) (jitter : Nat → Int) (g : GameState) :
      Step vs_ai best_of rounds_to_win g (tick vs_ai best_of hunt jitter g)

/-- States the main loop can reach from the start of a match. -/
inductive Reachable (vs_ai : Bool) (best_of rounds_to_win : Nat) :
    GameState → Prop where
  | start : Reachable vs_ai best_of rounds_to_win (init_state vs_ai)
  | step {g g2 : GameState} :
      Reachable vs_ai best_of rounds_to_win g →
      Step vs_ai best_of rounds_to_win g g2 →
      Reachable vs_ai best_of rounds_to_win g2

/-! ### Helper lemmas -/

lemma safe_directions_from_eq_filter (h c : Cell) (occ : List Cell) (l : List Cell) :
    safe_directions_from h c occ l = l.filter (safe_pred h c occ) := by
  induction l with
  | nil => rfl
  | cons d ds ih =>
    by_cases h1 : (-d.1, -d.2) = c
    · simp [safe_directions_from, h1, safe_pred, List.filter_cons, ih]
    · by_cases h2 : in_bounds (next_pos_from h d) = true
      · by_cases h3 : next_pos_from h d ∈ occ
        · simp [safe_directions_from, h1, h2, h3, safe_pred, List.filter_cons, ih]
        · simp [safe_directions_from, h1, h2, h3, safe_pred, List.filter_cons, ih]
      · simp [safe_directions_from, h1, h2, safe_pred, List.filter_cons, ih,
          Bool.eq_false_iff.mpr h2]

lemma safe_directions_eq_filter (h c : Cell) (occ : List Cell) :
    safe_directions h c occ = DIRS.filter (safe_pred h c occ) :=
  safe_directions_from_eq_filter h c occ DIRS

lemma mem_safe_directions {d h c : Cell} {occ : List Cell} :
    d ∈ safe_directions h c occ ↔
      d ∈ DIRS ∧ (-d.1, -d.2) ≠ c ∧ in_bounds (next_pos_from h d) = true ∧
        next_pos_from h d ∉ occ := by
  rw [safe_directions_eq_filter, List.mem_filter]
  simp [safe_pred, and_assoc]

lemma aiLoop_spec (S : Nat → Cell → Int) :
    ∀ (l : List Cell) (i : Nat) (b : Cell) (bs : Int),
      (aiLoop S l i b bs = (b, bs) ∧
        ∀ k, (hk : k < l.length) → S (i + k) l[k] ≤ bs) ∨
      ∃ j, ∃ (hj : j < l.length),
        aiLoop S l i b bs = (l[j], S (i + j) l[j]) ∧
        bs < S (i + j) l[j] ∧
        (∀ k, (hk : k < l.length) → S (i + k) l[k] ≤ S (i + j) l[j]) ∧
        (∀ k, (hk : k < j) → S (i + k) l[k] < S (i + j) l[j]) := by
  intro l
  induction l with
  | nil =>
    intro i b bs
    left
    refine ⟨rfl, ?_⟩
    intro k hk
    simp at hk
  | cons d ds ih =>
    intro i b bs
    simp only [aiLoop]
    split
    case isTrue hlt =>
      rcases ih (i + 1) d (S i d) with ⟨heq, hall⟩ | ⟨j, hj, heq, hgt, hmax, hfirst⟩
      · right
        refine ⟨0, by simp, by simpa using heq, by simpa using hlt, ?_, ?_⟩
        · intro k hk
          cases k with
          | zero => simp
          | succ m =>
            have hm : m < ds.length := by simpa using hk
            have := hall m hm
            simpa [Nat.add_right_comm i 1 m] using this
        · intro k hk
          exact absurd hk (Nat.not_lt_zero k)
      · right
        have hj2 : j + 1 < (d :: ds).length := by simpa using Nat.succ_lt_succ hj
        refine ⟨j + 1, hj2, ?_, ?_, ?_, ?_⟩
        · simpa [Nat.add_right_comm i 1 j] using heq
        · have : bs < S (i + 1 + j) ds[j] := lt_trans hlt hgt
          simpa [Nat.add_right_comm i 1 j] using this
        · intro k hk
          cases k with
          | zero =>
            have : S i d ≤ S (i + 1 + j) ds[j] := le_of_lt hgt
            simpa [Nat.add_right_comm i 1 j] using this
          | succ m =>
            have hm : m < ds.length := by simpa using hk
            have := hmax m hm
            simpa [Nat.add_right_comm i 1 m, Nat.add_right_comm i 1 j] using this
        · intro k hk
          cases k with
          | zero =>
            simpa [Nat.add_right_comm i 1 j] using hgt
          | succ m =>
            have hm : m < j := by omega
            have := hfirst m hm
            simpa [Nat.add_right_comm i 1 m, Nat.add_right_comm i 1 j] using this
    case isFalse hge =>
      have hled : S i d ≤ bs := not_lt.mp hge
      rcases ih (i + 1) b bs with ⟨heq, hall⟩ | ⟨j, hj, heq, hgt, hmax, hfirst⟩
      · left
        refine ⟨heq, ?_⟩
        intro k hk
        cases k with
        | zero => simpa using hled
        | succ m =>
          have hm : m < ds.length := by simpa using hk
          have := hall m hm
          simpa [Nat.add_right_comm i 1 m] using this
      · right
        have hj2 : j + 1 < (d :: ds).length := by simpa using Nat.succ_lt_succ hj
        refine ⟨j + 1, hj2, ?_, ?_, ?_, ?_⟩
        · simpa [Nat.add_right_comm i 1 j] using heq
        · simpa [Nat.add_right_comm i 1 j] using hgt
        · intro k hk
          cases k with
          | zero =>
            have : S i d ≤ S (i + 1 + j) ds[j] := le_trans hled (le_of_lt hgt)
            simpa [Nat.add_right_comm i 1 j] using this
          | succ m =>
            have hm : m < ds.length := by simpa using hk
            have := hmax m hm
            simpa [Nat.add_right_comm i 1 m, Nat.add_right_comm i 1 j] using this
        · intro k hk
          cases k with
          | zero =>
            have : S i d < S (i + 1 + j) ds[j] := lt_of_le_of_lt hled hgt
            simpa [Nat.add_right_comm i 1 j] using this
          | succ m =>
            have hm : m < j := by omega
            have := hfirst m hm
            simpa [Nat.add_right_comm i 1 m, Nat.add_right_comm i 1 j] using this

lemma aiLoop_congr (S T : Nat → Cell → Int) :
    ∀ (l : List Cell) (i : Nat) (b : Cell) (bs : Int),
      (∀ k, (hk : k < l.length) → S (i + k) l[k] = T (i + k) l[k]) →
      aiLoop S l i b bs = aiLoop T l i b bs := by
  intro l
  induction l with
  | nil => intro i b bs _; rfl
  | cons d ds ih =>
    intro i b bs hag
    have h0 : S i d = T i d := by simpa using hag 0 (by simp)
    have hrest : ∀ k, (hk : k < ds.length) → S (i + 1 + k) ds[k] = T (i + 1 + k) ds[k] := by
      intro k hk
      have := hag (k + 1) (by simpa using Nat.succ_lt_succ hk)
      simpa [Nat.add_right_comm i 1 k] using this
    simp only [aiLoop, h0]
    split
    · exact ih (i + 1) d (T i d) hrest
    · exact ih (i + 1) b bs hrest

lemma manhattan_le_of_in_bounds {a b : Cell}
    (ha : in_bounds a = true) (hb : in_bounds b = true) :
    manhattan a b ≤ 68 := by
  unfold in_bounds GRID_WIDTH GRID_HEIGHT at ha hb
  rw [decide_eq_true_eq] at ha hb
  unfold manhattan
  omega

lemma aiScore_lb (ai_dir ai_head human_head : Cell) (occ : List Cell)
    (hunt : Bool) (jitter : Nat → Int) (i : Nat) (d : Cell)
    (hhh : in_bounds human_head = true)
    (hnp : in_bounds (next_pos_from ai_head d) = true)
    (hj : -2 ≤ jitter i) :
    -(10 ^ 9 : Int) < aiScore ai_dir ai_head human_head occ hunt jitter i d := by
  unfold aiScore
  have hlen : (0 : Int) ≤
      ((safe_directions (next_pos_from ai_head d) d
        (next_pos_from ai_head d :: occ)).length : Int) := Int.natCast_nonneg _
  have hm : manhattan (next_pos_from ai_head d) human_head ≤ 68 :=
    manhattan_le_of_in_bounds hnp hhh
  cases hunt <;> split_ifs <;> simp only [] <;> nlinarith

lemma change_direction_alive (c : LightCycle) (d : Cell) :
    (c.change_direction d).alive = c.alive := by
  unfold LightCycle.change_direction
  split <;> rfl

lemma move_alive (c : LightCycle) : c.move.alive = c.alive := by
  unfold LightCycle.move
  split <;> rfl

/-- A jitter stream that always draws 0, used for concrete scenarios. -/
def zeroJitter (_ : Nat) : Int := 0

lemma reachable_iterate_tick (vs_ai : Bool) (best_of rounds_to_win : Nat)
    (hunt : Bool) (jitter : Nat → Int) (n : Nat) :
    Reachable vs_ai best_of rounds_to_win
      ((tick vs_ai best_of hunt jitter)^[n] (init_state vs_ai)) := by
  induction n with
  | zero => exact Reachable.start
  | succ m ih =>
    rw [Function.iterate_succ_apply']
    exact Reachable.step ih (Step.sim hunt jitter _)

/-- The two-player head-on scenario: both ticks with no key input from the
standard start, after n ticks. The agents start 20 cells apart on the same
row, heading toward each other. -/
def head_on_state (n : Nat) : GameState :=
  (tick false 1 false zeroJitter)^[n] (init_state false)

/-! ### Claim theorems -/

/-- C2: the death predicate returns true iff the head is out of bounds or the
head cell appears in some trail with the last element of each trail excluded;
in particular an in-bounds head absent from every trail minus its last
element is reported not dead. -/
theorem player_dead_iff (players : List LightCycle) (p : LightCycle) :
    (player_dead players p = true ↔
      in_bounds p.head = false ∨ ∃ q ∈ players, p.head ∈ q.trail.dropLast) ∧
    (in_bounds p.head = true → (∀ q ∈ players, p.head ∉ q.trail.dropLast) →
      player_dead players p = false) := by
  have hiff : player_dead players p = true ↔
      in_bounds p.head = false ∨ ∃ q ∈ players, p.head ∈ q.trail.dropLast := by
    unfold player_dead
    split
    case isTrue h => simp [h]
    case isFalse h => simp [h, List.any_eq_true]
  refine ⟨hiff, ?_⟩
  intro h1 h2
  cases hpd : player_dead players p
  · rfl
  · exfalso
    rcases hiff.mp hpd with h | ⟨q, hq, hmem⟩
    · rw [h1] at h
      cases h
    · exact h2 q hq hmem

/-- C2 witness: a concrete in-bounds agent sharing no non-terminal trail cell
is reported not dead. -/
theorem player_dead_iff_witness :
    player_dead [⟨BLUE, RIGHT, [(4, 5), (5, 5)], true, "Player 1"⟩]
      ⟨BLUE, RIGHT, [(4, 5), (5, 5)], true, "Player 1"⟩ = false :=
  (player_dead_iff [⟨BLUE, RIGHT, [(4, 5), (5, 5)], true, "Player 1"⟩]
      ⟨BLUE, RIGHT, [(4, 5), (5, 5)], true, "Player 1"⟩).2
    (by decide) (by decide)

/-- C3: safeHeadings returns exactly the headings, in the fixed DIRS order,
that are not the reversal of the current heading and whose next position is
in bounds and unoccupied; it never contains the reversal of the input
heading; and the 40x30 scenario with head (10,15), heading RIGHT and
occupancy containing only that head returns exactly [UP, DOWN, RIGHT]. -/
theorem safe_directions_spec :
    (∀ (h c : Cell) (occ : List Cell),
        safe_directions h c occ = DIRS.filter (safe_pred h c occ)) ∧
    (∀ (h c : Cell) (occ : List Cell), ((-c.1, -c.2) : Cell) ∉ safe_directions h c occ) ∧
    safe_directions (10, 15) RIGHT [(10, 15)] = [UP, DOWN, RIGHT] := by
  refine ⟨safe_directions_eq_filter, ?_, by decide⟩
  intro h c occ hmem
  rcases mem_safe_directions.mp hmem with ⟨_, hrev, _, _⟩
  exact hrev (by simp)

/-- C3 witness: the reversal of RIGHT is absent from the scenario result. -/
theorem safe_directions_spec_witness :
    ((-RIGHT.1, -RIGHT.2) : Cell) ∉ safe_directions (10, 15) RIGHT [(10, 15)] :=
  safe_directions_spec.2.1 (10, 15) RIGHT [(10, 15)]

/-- C6: with no safe candidate, chooseDirection returns the current heading
unchanged. -/
theorem choose_ai_direction_no_candidates (ai human : LightCycle)
    (occupied : List Cell) (hunt : Bool) (jitter : Nat → Int)
    (h : safe_directions ai.head ai.direction occupied = []) :
    choose_ai_direction ai human occupied hunt jitter = ai.direction := by
  simp [choose_ai_direction, h]

/-- C6 witness: an agent at the corner (0,0) heading UP with (1,0) occupied
has no safe candidate and keeps heading UP. -/
theorem choose_ai_direction_no_candidates_witness :
    safe_directions (LightCycle.head ⟨BLUE, UP, [(0, 0)], true, "AI"⟩)
        (LightCycle.direction ⟨BLUE, UP, [(0, 0)], true, "AI"⟩) [(1, 0)] = [] ∧
    choose_ai_direction ⟨BLUE, UP, [(0, 0)], true, "AI"⟩
        ⟨RED, LEFT, [(5, 5)], true, "Player 1"⟩ [(1, 0)] false zeroJitter = UP :=
  ⟨by decide,
   choose_ai_direction_no_candidates ⟨BLUE, UP, [(0, 0)], true, "AI"⟩
     ⟨RED, LEFT, [(5, 5)], true, "Player 1"⟩ [(1, 0)] false zeroJitter (by decide)⟩

/-- C7: changeDirection sets the heading to the request unless the request is
the exact opposite of the current heading, which is silently ignored; hence,
for the four grid headings, no single call can leave the heading equal to the
reversal of the heading it had immediately before. -/
theorem change_direction_spec :
    (∀ (c : LightCycle) (d : Cell),
        (c.change_direction d).direction =
          if (-d.1, -d.2) = c.direction then c.direction else d) ∧
    (∀ (c : LightCycle) (d : Cell), c.direction ∈ DIRS →
        (c.change_direction d).direction ≠ ((-c.direction.1, -c.direction.2) : Cell)) := by
  have heq : ∀ (c : LightCycle) (d : Cell),
      (c.change_direction d).direction =
        if (-d.1, -d.2) = c.direction then c.direction else d := by
    intro c d
    unfold LightCycle.change_direction
    split
    case isTrue h => simp [if_neg h]
    case isFalse h =>
      rw [not_not] at h
      simp [if_pos h]
  refine ⟨heq, ?_⟩
  intro c d hmem
  rw [heq]
  split
  case isTrue h =>
    have h4 : c.direction = UP ∨ c.direction = DOWN ∨ c.direction = LEFT ∨
        c.direction = RIGHT := by simpa [DIRS] using hmem
    rcases h4 with h4 | h4 | h4 | h4 <;> rw [h4] <;> decide
  case isFalse h =>
    intro hd
    apply h
    rw [hd]
    simp

/-- C7 witness: requesting LEFT while heading RIGHT is ignored and the
resulting heading is not the reversal of RIGHT. -/
theorem change_direction_spec_witness :
    (LightCycle.change_direction ⟨BLUE, RIGHT, [(0, 0)], true, "Player 1"⟩ LEFT).direction
      ≠ ((-RIGHT.1, -RIGHT.2) : Cell) :=
  change_direction_spec.2 ⟨BLUE, RIGHT, [(0, 0)], true, "Player 1"⟩ LEFT (by decide)

/-- C8: move() while alive appends exactly head + heading to the trail (the
length grows by exactly one and every other field is unchanged); move() while
not alive leaves the agent entirely unchanged. -/
theorem move_spec (c : LightCycle) :
    (c.alive = true →
      c.move.trail = c.trail ++ [next_pos_from c.head c.direction] ∧
      c.move.trail.length = c.trail.length + 1 ∧
      c.move.direction = c.direction ∧ c.move.alive = c.alive ∧
      c.move.color = c.color ∧ c.move.name = c.name) ∧
    (c.alive = false → c.move = c) := by
  constructor
  · intro h
    simp [LightCycle.move, h]
  · intro h
    simp [LightCycle.move, h]

/-- C8 witness: a live agent's move appends one cell; a dead agent's move is
the identity. -/
theorem move_spec_witness :
    (LightCycle.move ⟨BLUE, RIGHT, [(4, 5), (5, 5)], true, "Player 1"⟩).trail
      = [(4, 5), (5, 5)] ++ [next_pos_from
          (LightCycle.head ⟨BLUE, RIGHT, [(4, 5), (5, 5)], true, "Player 1"⟩) RIGHT] ∧
    LightCycle.move ⟨RED, LEFT, [(7, 7)], false, "Player 2"⟩
      = ⟨RED, LEFT, [(7, 7)], false, "Player 2"⟩ :=
  ⟨((move_spec ⟨BLUE, RIGHT, [(4, 5), (5, 5)], true, "Player 1"⟩).1 (by decide)).1,
   (move_spec ⟨RED, LEFT, [(7, 7)], false, "Player 2"⟩).2 (by decide)⟩

/-- C4: with a non-empty candidate list, chooseDirection scores every
candidate as space score + distance score + straight bonus + jitter
(aiScore) and returns the first candidate, in the fixed iteration order, that
attains the maximum score: every candidate scores no higher, and every
earlier candidate scores strictly lower. -/
theorem choose_ai_direction_first_argmax (ai human : LightCycle)
    (occupied : List Cell) (hunt : Bool) (jitter : Nat → Int)
    (hne : safe_directions ai.head ai.direction occupied ≠ [])
    (hhh : in_bounds human.head = true)
    (hjit : ∀ i, -2 ≤ jitter i ∧ jitter i ≤ 2) :
    ∃ j, ∃ (hj : j < (safe_directions ai.head ai.direction occupied).length),
      choose_ai_direction ai human occupied hunt jitter
        = (safe_directions ai.head ai.direction occupied)[j] ∧
      (∀ k, (hk : k < (safe_directions ai.head ai.direction occupied).length) →
        aiScore ai.direction ai.head human.head occupied hunt jitter k
            (safe_directions ai.head ai.direction occupied)[k] ≤
          aiScore ai.direction ai.head human.head occupied hunt jitter j
            (safe_directions ai.head ai.direction occupied)[j]) ∧
      (∀ k, (hk : k < j) →
        aiScore ai.direction ai.head human.head occupied hunt jitter k
            (safe_directions ai.head ai.direction occupied)[k] <
          aiScore ai.direction ai.head human.head occupied hunt jitter j
            (safe_directions ai.head ai.direction occupied)[j]) := by
  have key : ∀ (l : List Cell) (S : Nat → Cell → Int) (b : Cell),
      l ≠ [] → (∀ k, (hk : k < l.length) → -(10 ^ 9 : Int) < S k l[k]) →
      ∃ j, ∃ (hj : j < l.length),
        (if l = [] then b else (aiLoop S l 0 b (-(10 ^ 9 : Int))).1) = l[j] ∧
        (∀ k, (hk : k < l.length) → S k l[k] ≤ S j l[j]) ∧
        (∀ k, (hk : k < j) → S k l[k] < S j l[j]) := by
    intro l S b hne0 hlb
    rcases aiLoop_spec S l 0 b (-(10 ^ 9 : Int)) with
      ⟨heq, hall⟩ | ⟨j, hj, heq, _, hmax, hfirst⟩
    · exfalso
      have hlen : 0 < l.length := List.length_pos.mpr hne0
      have h1 := hall 0 hlen
      have h2 := hlb 0 hlen
      simp only [Nat.add_zero] at h1
      linarith
    · refine ⟨j, hj, ?_, ?_, ?_⟩
      · rw [if_neg hne0, heq]
      · intro k hk
        simpa using hmax k hk
      · intro k hk
        simpa using hfirst k hk
  have hlb : ∀ k, (hk : k < (safe_directions ai.head ai.direction occupied).length) →
      -(10 ^ 9 : Int) <
        aiScore ai.direction ai.head human.head occupied hunt jitter k
          (safe_directions ai.head ai.direction occupied)[k] := by
    intro k hk
    have hmem : (safe_directions ai.head ai.direction occupied)[k] ∈
        safe_directions ai.head ai.direction occupied := List.getElem_mem hk
    exact aiScore_lb ai.direction ai.head human.head occupied hunt jitter k
      (safe_directions ai.head ai.direction occupied)[k] hhh
      (mem_safe_directions.mp hmem).2.2.1 (hjit k).1
  have hk2 := key (safe_directions ai.head ai.direction occupied)
    (aiScore ai.direction ai.head human.head occupied hunt jitter) ai.direction hne hlb
  simpa [choose_ai_direction] using hk2

/-- A concrete AI agent used by witness scenarios. -/
def aiW : LightCycle := ⟨BLUE, RIGHT, [(10, 15)], true, "AI"⟩

/-- A concrete human opponent used by witness scenarios. -/
def humanW : LightCycle := ⟨RED, LEFT, [(30, 15)], true, "Player 1"⟩

/-- The occupancy set of the witness scenarios: both heads. -/
def occW : List Cell := [(10, 15), (30, 15)]

/-- A jitter stream that agrees with zeroJitter only on the first three
draws. -/
def laterJitter (i : Nat) : Int := if i < 3 then 0 else 5

/-- C4 witness: the argmax characterization instantiated in the 40x30
scenario with three candidates. -/
theorem choose_ai_direction_first_argmax_witness :
    ∃ j, ∃ (hj : j < (safe_directions aiW.head aiW.direction occW).length),
      choose_ai_direction aiW humanW occW false zeroJitter
        = (safe_directions aiW.head aiW.direction occW)[j] ∧
      (∀ k, (hk : k < (safe_directions aiW.head aiW.direction occW).length) →
        aiScore aiW.direction aiW.head humanW.head occW false zeroJitter k
            (safe_directions aiW.head aiW.direction occW)[k] ≤
          aiScore aiW.direction aiW.head humanW.head occW false zeroJitter j
            (safe_directions aiW.head aiW.direction occW)[j]) ∧
      (∀ k, (hk : k < j) →
        aiScore aiW.direction aiW.head humanW.head occW false zeroJitter k
            (safe_directions aiW.head aiW.direction occW)[k] <
          aiScore aiW.direction aiW.head humanW.head occW false zeroJitter j
            (safe_directions aiW.head aiW.direction occW)[j]) :=
  choose_ai_direction_first_argmax aiW humanW occW false zeroJitter
    (by decide) (by decide) (fun i => ⟨by norm_num [zeroJitter], by norm_num [zeroJitter]⟩)

/-- C9: chooseDirection is a function of the agent state, the opponent state,
the occupancy set, the hunting draw and the jitter draws it consumes: two
runs with the same agent, opponent and occupancy, equal hunting draws, and
jitter streams that agree on the consumed indices (one per candidate) return
the same heading. -/
theorem choose_ai_direction_deterministic (ai human : LightCycle)
    (occupied : List Cell) (hunt1 hunt2 : Bool) (jitter1 jitter2 : Nat → Int)
    (hh : hunt1 = hunt2)
    (hjag : ∀ i, i < (safe_directions ai.head ai.direction occupied).length →
      jitter1 i = jitter2 i) :
    choose_ai_direction ai human occupied hunt1 jitter1
      = choose_ai_direction ai human occupied hunt2 jitter2 := by
  subst hh
  unfold choose_ai_direction
  by_cases hne : safe_directions ai.head ai.direction occupied = []
  · simp [hne]
  · simp only [if_neg hne]
    have hag : ∀ k, (hk : k < (safe_directions ai.head ai.direction occupied).length) →
        aiScore ai.direction ai.head human.head occupied hunt1 jitter1 (0 + k)
          (safe_directions ai.head ai.direction occupied)[k]
        = aiScore ai.direction ai.head human.head occupied hunt1 jitter2 (0 + k)
          (safe_directions ai.head ai.direction occupied)[k] := by
      intro k hk
      have hjk := hjag k hk
      simp [aiScore, hjk]
    rw [aiLoop_congr
      (aiScore ai.direction ai.head human.head occupied hunt1 jitter1)
      (aiScore ai.direction ai.head human.head occupied hunt1 jitter2)
      (safe_directions ai.head ai.direction occupied) 0 ai.direction
      (-(10 ^ 9 : Int)) hag]

/-- C9 witness: with three candidates, a jitter stream differing only from
the fourth draw on yields the same heading. -/
theorem choose_ai_direction_deterministic_witness :
    choose_ai_direction aiW humanW occW false zeroJitter
      = choose_ai_direction aiW humanW occW false laterJitter :=
  choose_ai_direction_deterministic aiW humanW occW false false zeroJitter laterJitter rfl
    (fun i hi => by
      have hlen : (safe_directions aiW.head aiW.direction occW).length = 3 := by decide
      rw [hlen] at hi
      simp [zeroJitter, laterJitter, hi])

/-- C5: while a round is over, a tick leaves the entire state (trails,
scores, everything) unchanged and every gameplay key is ignored; the R key
re-initializes both agents to their starting positions and headings and
resumes play; an R key pressed while the match has concluded (a counter
reached rounds_to_win in best-of-5) additionally resets both counters to
zero. -/
theorem round_over_freeze_and_restart (vs_ai : Bool) (best_of rounds_to_win : Nat) :
    (∀ (g : GameState) (hunt : Bool) (jitter : Nat → Int),
      g.round_over = true → tick vs_ai best_of hunt jitter g = g) ∧
    (∀ (g : GameState) (k : Key), g.round_over = true → k ≠ Key.r →
      handle_key vs_ai best_of rounds_to_win k g = g) ∧
    (∀ g : GameState, g.round_over = true →
      (handle_key vs_ai best_of rounds_to_win Key.r g).player1 = (reset_round vs_ai).1 ∧
      (handle_key vs_ai best_of rounds_to_win Key.r g).player2 = (reset_round vs_ai).2 ∧
      (handle_key vs_ai best_of rounds_to_win Key.r g).round_over = false) ∧
    (∀ g : GameState, g.round_over = true → best_of = 5 →
      (rounds_to_win ≤ g.scoreP1 ∨ rounds_to_win ≤ g.scoreP2) →
      (handle_key vs_ai best_of rounds_to_win Key.r g).scoreP1 = 0 ∧
      (handle_key vs_ai best_of rounds_to_win Key.r g).scoreP2 = 0) := by
  refine ⟨?_, ?_, ?_, ?_⟩
  · intro g hunt jitter hro
    simp [tick, hro]
  · intro g k hro hk
    simp [handle_key, hro, hk]
  · intro g hro
    simp [handle_key, hro]
  · intro g hro h5 hcon
    have hcond : best_of = 5 ∧ (rounds_to_win ≤ g.scoreP1 ∨ rounds_to_win ≤ g.scoreP2) :=
      ⟨h5, hcon⟩
    simp only [handle_key, hro, if_true]
    rw [if_pos hcond]
    exact ⟨rfl, rfl⟩

/-- The concluded-match state used as the C5 witness: round over, player 1 at
three round wins. -/
def gW : GameState :=
  { player1 := ⟨BLUE, RIGHT, [(10, 15), (11, 15)], true, "Player 1"⟩
    player2 := ⟨RED, LEFT, [(30, 15), (29, 15)], true, "Player 2"⟩
    round_over := true
    winner_text := "Player 1 Wins!"
    scoreP1 := 3
    scoreP2 := 0 }

/-- C5 witness: in the concluded best-of-5 state, a tick is the identity, an
arrow key is ignored, and R resumes play with both counters reset. -/
theorem round_over_freeze_and_restart_witness :
    tick false 5 3 zeroJitter gW = gW ∧
    handle_key false 5 3 Key.up gW = gW ∧
    (handle_key false 5 3 Key.r gW).round_over = false ∧
    (handle_key false 5 3 Key.r gW).player1 = (reset_round false).1 ∧
    (handle_key false 5 3 Key.r gW).scoreP1 = 0 ∧
    (handle_key false 5 3 Key.r gW).scoreP2 = 0 :=
  ⟨(round_over_freeze_and_restart false 5 3).1 gW 3 zeroJitter rfl,
   (round_over_freeze_and_restart false 5 3).2.1 gW Key.up rfl (by decide),
   ((round_over_freeze_and_restart false 5 3).2.2.1 gW rfl).2.2,
   ((round_over_freeze_and_restart false 5 3).2.2.1 gW rfl).1,
   ((round_over_freeze_and_restart false 5 3).2.2.2 gW rfl rfl (Or.inl (by decide))).1,
   ((round_over_freeze_and_restart false 5 3).2.2.2 gW rfl rfl (Or.inl (by decide))).2⟩

/-- C10: in every state the game loop can reach, both agents' alive flags are
true: the flag is set at construction (reset_round) and no operation of the
loop ever clears it — the death check only sets round_over and the outcome
text — so the not-alive branch of move() is unreachable during play. -/
theorem alive_invariant (vs_ai : Bool) (best_of rounds_to_win : Nat)
    (g : GameState) (h : Reachable vs_ai best_of rounds_to_win g) :
    g.player1.alive = true ∧ g.player2.alive = true := by
  induction h with
  | start =>
    constructor <;> cases vs_ai <;> rfl
  | @step s s2 hr hs ih =>
    cases hs with
    | key k =>
      cases hro : s.round_over
      · cases vs_ai <;> cases k <;>
          simp [handle_key, hro, change_direction_alive, ih.1, ih.2]
      · by_cases hk : k = Key.r
        · subst hk
          cases vs_ai <;> simp [handle_key, hro, reset_round]
        · simpa [handle_key, hro, hk] using ih
    | sim hunt jitter =>
      cases hro : s.round_over
      · cases vs_ai <;>
          (simp only [tick, hro, Bool.false_eq_true, if_false]
           split_ifs <;>
             simp [move_alive, change_direction_alive, ih.1, ih.2])
      · simpa [tick, hro] using ih

/-- C10 witness: the invariant at the start state of a two-player match. -/
theorem alive_invariant_witness :
    (init_state false).player1.alive = true ∧ (init_state false).player2.alive = true :=
  alive_invariant false 1 1 (init_state false) Reachable.start

/-- C1 counterexample: a reachable two-player round state (10 ticks, no
input, from the standard start) in which both agents' moves of that tick
have just placed both heads on the same cell, yet the post-move death check
reports neither agent dead, the round is not over, and the outcome text is
not "Draw". The check excludes the last element of every trail, which also
excludes the opponent's freshly placed head. -/
theorem head_on_same_cell_counterexample :
    Reachable false 1 1 (head_on_state 10) ∧
    (head_on_state 10).player1.head = (head_on_state 10).player2.head ∧
    player_dead [(head_on_state 10).player1, (head_on_state 10).player2]
      (head_on_state 10).player1 = false ∧
    player_dead [(head_on_state 10).player1, (head_on_state 10).player2]
      (head_on_state 10).player2 = false ∧
    (head_on_state 10).round_over = false ∧
    (head_on_state 10).winner_text ≠ "Draw!" :=
  ⟨reachable_iterate_tick false 1 1 false zeroJitter 10,
   by decide, by decide, by decide, by decide, by decide⟩

/-- C1 amended: when the two agents' moves of one tick place both heads on
the same in-bounds cell that lies in neither trail with the last elements
excluded, the post-move death check reports both agents NOT dead and the
round continues that tick; the Draw arrives one tick later when both keep
moving: in the concrete head-on scenario the heads coincide after tick 10
with both agents alive, and tick 11 reports both dead with outcome
"Draw!". -/
theorem head_on_same_cell_amended :
    (∀ p1 p2 : LightCycle, p1.head = p2.head →
      in_bounds p1.head = true →
      p1.head ∉ p1.trail.dropLast → p1.head ∉ p2.trail.dropLast →
      player_dead [p1, p2] p1 = false ∧ player_dead [p1, p2] p2 = false) ∧
    ((head_on_state 11).round_over = true ∧
     (head_on_state 11).winner_text = "Draw!" ∧
     player_dead [(head_on_state 11).player1, (head_on_state 11).player2]
       (head_on_state 11).player1 = true ∧
     player_dead [(head_on_state 11).player1, (head_on_state 11).player2]
       (head_on_state 11).player2 = true) := by
  constructor
  · intro p1 p2 hheads hib h1 h2
    have hh2 : p2.head = p1.head := hheads.symm
    refine ⟨?_, ?_⟩ <;> simp [player_dead, hib, hh2, h1, h2]
  · exact ⟨by decide, by decide, by decide, by decide⟩

/-- C1 amended witness: two concrete agents that just landed on the same
fresh in-bounds cell are both reported alive by the death check. -/
theorem head_on_same_cell_amended_witness :
    player_dead [⟨BLUE, RIGHT, [(10, 15), (11, 15)], true, "Player 1"⟩,
                 ⟨RED, LEFT, [(12, 15), (11, 15)], true, "Player 2"⟩]
      ⟨BLUE, RIGHT, [(10, 15), (11, 15)], true, "Player 1"⟩ = false ∧
    player_dead [⟨BLUE, RIGHT, [(10, 15), (11, 15)], true, "Player 1"⟩,
                 ⟨RED, LEFT, [(12, 15), (11, 15)], true, "Player 2"⟩]
      ⟨RED, LEFT, [(12, 15), (11, 15)], true, "Player 2"⟩ = false :=
  head_on_same_cell_amended.1
    ⟨BLUE, RIGHT, [(10, 15), (11, 15)], true, "Player 1"⟩
    ⟨RED, LEFT, [(12, 15), (11, 15)], true, "Player 2"⟩
    (by decide) (by decide) (by decide) (by decide)
